import Mathlib

/-!
# Verification of the soil-analysis core (`NASA_SMAP.py`)

Shallow embedding of the aggregation pipeline of `FreeSoilAnalyzer`:
numeric values are modelled as exact rationals, JSON dictionaries as
association lists wrapped in `Option` (with `none` standing for the empty
payload returned on a failed fetch), and the wall clock and the HTTP
transport as explicit parameters.
-/

/-- A Python runtime value as seen by `_classify_soil_type`: either a number
(`int`/`float`, modelled as an exact rational) or a non-numeric value. -/
inductive PyVal where
  | num (q : ℚ)
  | nonNum
deriving DecidableEq

/-- Whether a `PyVal` passes Python `isinstance(x, (int, float))`. -/
def PyVal.isNum : PyVal → Bool
  | .num _ => true
  | .nonNum => false

/-- Embedding of `FreeSoilAnalyzer._classify_soil_type` (NASA_SMAP.py lines
236-253): the `isinstance` guard short-circuits to "Unknown"; otherwise a
first-match decision tree over the three percentages. -/
def classifySoilType : PyVal → PyVal → PyVal → String
  | .num clay, .num sand, .num silt =>
    if 85 ≤ sand then "Sandy"
    else if 40 ≤ clay then "Clay"
    else if 80 ≤ silt then "Silty"
    else if 70 ≤ sand then "Sandy Loam"
    else if 27 ≤ clay ∧ 28 ≤ silt ∧ sand ≤ 45 then "Clay Loam"
    else "Loam"
  | _, _, _ => "Unknown"

/-- The six texture classes produced by the decision tree. -/
def knownSoilClasses : List String :=
  ["Sandy", "Clay", "Silty", "Sandy Loam", "Clay Loam", "Loam"]

/-- Claim C1: on every numeric triple with each component in [0,100] summing
to 100, `classifySoilType` returns exactly one of the six classes, chosen by
first match in the exact source order (sand ≥ 85, clay ≥ 40, silt ≥ 80,
sand ≥ 70, clay ≥ 27 ∧ silt ≥ 28 ∧ sand ≤ 45, otherwise Loam); any
non-numeric argument short-circuits to "Unknown". Totality and determinism
hold because the embedding is a total function. -/
theorem c1_soil_classification_total :
    (∀ clay sand silt : ℚ,
      0 ≤ clay → clay ≤ 100 → 0 ≤ sand → sand ≤ 100 → 0 ≤ silt → silt ≤ 100 →
      clay + sand + silt = 100 →
      classifySoilType (.num clay) (.num sand) (.num silt) ∈ knownSoilClasses ∧
      (85 ≤ sand → classifySoilType (.num clay) (.num sand) (.num silt) = "Sandy") ∧
      (sand < 85 → 40 ≤ clay →
        classifySoilType (.num clay) (.num sand) (.num silt) = "Clay") ∧
      (sand < 85 → clay < 40 → 80 ≤ silt →
        classifySoilType (.num clay) (.num sand) (.num silt) = "Silty") ∧
      (sand < 85 → clay < 40 → silt < 80 → 70 ≤ sand →
        classifySoilType (.num clay) (.num sand) (.num silt) = "Sandy Loam") ∧
      (sand < 85 → clay < 40 → silt < 80 → sand < 70 →
        27 ≤ clay → 28 ≤ silt → sand ≤ 45 →
        classifySoilType (.num clay) (.num sand) (.num silt) = "Clay Loam") ∧
      (sand < 85 → clay < 40 → silt < 80 → sand < 70 →
        ¬(27 ≤ clay ∧ 28 ≤ silt ∧ sand ≤ 45) →
        classifySoilType (.num clay) (.num sand) (.num silt) = "Loam")) ∧
    (∀ x y z : PyVal, (x.isNum = false ∨ y.isNum = false ∨ z.isNum = false) →
      classifySoilType x y z = "Unknown") := by
  constructor
  · intro clay sand silt _ _ _ _ _ _ _
    refine ⟨?_, ?_, ?_, ?_, ?_, ?_, ?_⟩
    · simp only [classifySoilType, knownSoilClasses]
      split_ifs <;> simp
    · intro h85
      simp only [classifySoilType]
      rw [if_pos h85]
    · intro h85 h40
      simp only [classifySoilType]
      rw [if_neg (not_le.mpr h85), if_pos h40]
    · intro h85 h40 h80
      simp only [classifySoilType]
      rw [if_neg (not_le.mpr h85), if_neg (not_le.mpr h40), if_pos h80]
    · intro h85 h40 h80 h70
      simp only [classifySoilType]
      rw [if_neg (not_le.mpr h85), if_neg (not_le.mpr h40), if_neg (not_le.mpr h80),
        if_pos h70]
    · intro h85 h40 h80 h70 h27 h28 h45
      simp only [classifySoilType]
      rw [if_neg (not_le.mpr h85), if_neg (not_le.mpr h40), if_neg (not_le.mpr h80),
        if_neg (not_le.mpr h70), if_pos ⟨h27, h28, h45⟩]
    · intro h85 h40 h80 h70 hnot
      simp only [classifySoilType]
      rw [if_neg (not_le.mpr h85), if_neg (not_le.mpr h40), if_neg (not_le.mpr h80),
        if_neg (not_le.mpr h70), if_neg hnot]
  · intro x y z h
    cases x <;> cases y <;> cases z <;> simp_all [classifySoilType, PyVal.isNum]

/-- Witness for C1 at the concrete triple (20, 40, 40). -/
theorem c1_witness :
    classifySoilType (.num 20) (.num 40) (.num 40) ∈ knownSoilClasses :=
  (c1_soil_classification_total.1 20 40 40 (by norm_num) (by norm_num) (by norm_num)
    (by norm_num) (by norm_num) (by norm_num) (by norm_num)).1

/-- Python `round` rounds halves to the nearest even integer; off the halfway
point it agrees with ordinary rounding. Binary floating-point representation
effects are abstracted away: values are exact rationals. -/
def pyRoundInt (x : ℚ) : ℤ :=
  if Int.fract x = 1 / 2 then (if 2 ∣ ⌊x⌋ then ⌊x⌋ else ⌊x⌋ + 1) else round x

/-- Python `round(x, nd)` on exact rationals. -/
def pyRound (x : ℚ) (nd : ℕ) : ℚ :=
  (pyRoundInt (x * 10 ^ nd) : ℚ) / 10 ^ nd

/-- One depth layer of the soil payload, as consumed by
`_get_layer_property`: a property-name-indexed record of numeric values.
Entries that are absent, malformed, or non-numeric (the `IndexError` /
`KeyError` / `ValueError` / `TypeError` arms) are modelled as missing keys. -/
abbrev SoilLayer := List (String × ℚ)

/-- Embedding of `FreeSoilAnalyzer._get_layer_property` (lines 228-234) at
the default depth index 0: any failed lookup yields 0.0. -/
def getLayerProperty (layers : List SoilLayer) (propertyName : String) : ℚ :=
  match layers with
  | [] => 0
  | layer :: _ =>
    match layer.find? (fun p => p.1 == propertyName) with
    | some p => p.2
    | none => 0

/-- The pH stage of `_analyze_soil_properties` (lines 211-213): clamp the raw
extraction into [0, 14], then replace an exact 0 by the neutral default 7.0. -/
def computePhLevel (rawPh : ℚ) : ℚ :=
  let clamped := max 0 (min 14 rawPh)
  if clamped = 0 then 7 else clamped

/-- The rounded property record returned by `_analyze_soil_properties`. -/
structure SoilProps where
  clay : ℚ
  sand : ℚ
  silt : ℚ
  organic_matter : ℚ
  ph : ℚ
  nitrogen : ℚ
deriving DecidableEq

/-- Embedding of `FreeSoilAnalyzer._analyze_soil_properties` (lines 191-226):
clamp clay and sand into [0,100], derive silt as the clamped remainder,
renormalize to 100 when the total is positive, derive organic matter, pH and
nitrogen, and classify the normalized (unrounded) triple. The `except` arm of
the source is unreachable here: every step of the embedding is total. -/
def analyzeSoilProperties (layers : List SoilLayer) : String × SoilProps :=
  let clay := max 0 (min 100 (getLayerProperty layers "clay"))
  let sand := max 0 (min 100 (getLayerProperty layers "sand"))
  let silt := max 0 (min 100 (100 - clay - sand))
  let total := clay + sand + silt
  let clay2 := if 0 < total then clay / total * 100 else clay
  let sand2 := if 0 < total then sand / total * 100 else sand
  let silt2 := if 0 < total then silt / total * 100 else silt
  let organicMatter := max 0 (min 100 (getLayerProperty layers "soc" * 0.058))
  let ph := computePhLevel (getLayerProperty layers "phh2o")
  let nitrogen := max 0 (min 5 (organicMatter * 0.05))
  (classifySoilType (.num clay2) (.num sand2) (.num silt2),
    { clay := pyRound clay2 2
      sand := pyRound sand2 2
      silt := pyRound silt2 2
      organic_matter := pyRound organicMatter 2
      ph := pyRound ph 2
      nitrogen := pyRound nitrogen 3 })

/-- Embedding of `FreeSoilAnalyzer._estimate_moisture_content` (lines
161-189); called with the rounded clay/sand percentages of the property
record, exactly as in `_process_soil_data`. -/
def estimateMoistureContent (precipitation temperature humidity clay sand : ℚ) : ℚ :=
  let tempFactor := max 0 (min 40 temperature) / 40
  let precipFactor := max 0 (min 100 precipitation) / 100
  let humidityFactor := max 0 (min 100 humidity) / 100
  let clayFactor := clay / 100
  let sandFactor := sand / 100
  let baseCapacity := (clayFactor * 0.6 + sandFactor * 0.2) * 100
  let moisture := baseCapacity *
    (0.4 + 0.3 * precipFactor + 0.2 * humidityFactor - 0.1 * tempFactor)
  pyRound (max 0 (min 100 moisture)) 2

/-- The NASA POWER `parameter` dictionary: parameter name, then the
date-indexed series of daily values (`none` models a JSON null). -/
abbrev NasaParams := List (String × List (Option ℚ))

/-- Embedding of `FreeSoilAnalyzer._safe_get_nasa_value` (lines 96-105):
an absent or empty series yields 0.0, otherwise the mean of the non-null
entries (0.0 again when all entries are null). -/
def safeGetNasaValue (parameters : NasaParams) (key : String) : ℚ :=
  let values := ((parameters.find? (fun p => p.1 == key)).map Prod.snd).getD []
  if values.isEmpty then 0
  else
    let valid := values.filterMap id
    if valid.isEmpty then 0 else valid.sum / (valid.length : ℚ)

/-- The fields of the OpenWeatherMap payload that the spec's weather adapter
is said to extract. `_process_soil_data` itself reads none of them. -/
structure WeatherPayload where
  temp : Option ℚ
  humidity : Option ℚ
deriving DecidableEq

/-- The `additional_properties` sub-record of the output. -/
structure AdditionalProperties where
  temperature_celsius : Option ℚ
  precipitation_mm : Option ℚ
  humidity_percent : Option ℚ
  clay_content_percent : ℚ
  sand_content_percent : ℚ
  silt_content_percent : ℚ
deriving DecidableEq

/-- The `data_quality` sub-record of the output: three booleans, not a
graded verdict. -/
structure DataQualityFlags where
  weather_data_available : Bool
  nasa_data_available : Bool
  soil_data_available : Bool
deriving DecidableEq

/-- The dictionary returned by `_process_soil_data`. -/
structure ProcessedSoilData where
  moisture_content : ℚ
  soil_type : String
  organic_matter : ℚ
  ph_level : ℚ
  nitrogen_content : ℚ
  additional_properties : AdditionalProperties
  timestamp : String
  data_sources : List String
  data_quality : DataQualityFlags
deriving DecidableEq

/-- Embedding of `FreeSoilAnalyzer._process_soil_data` (lines 107-159). The
wall clock (`datetime.now().isoformat()`) is the explicit `now` parameter;
each source payload is `none` when the adapter returned the empty dict. -/
def processSoilData (now : String) (weatherData : Option WeatherPayload)
    (nasaData : Option NasaParams) (soilPayload : Option (List SoilLayer)) :
    ProcessedSoilData :=
  let parameters := nasaData.getD []
  let avgTemp := safeGetNasaValue parameters "T2M"
  let avgPrecip := safeGetNasaValue parameters "PRECTOT"
  let avgHumidity := safeGetNasaValue parameters "RH2M"
  let soilLayers := soilPayload.getD []
  let analyzed := analyzeSoilProperties soilLayers
  let props := analyzed.2
  { moisture_content := estimateMoistureContent avgPrecip avgTemp avgHumidity
      props.clay props.sand
    soil_type := analyzed.1
    organic_matter := props.organic_matter
    ph_level := props.ph
    nitrogen_content := props.nitrogen
    additional_properties :=
      { temperature_celsius := if avgTemp ≠ 0 then some (pyRound avgTemp 2) else none
        precipitation_mm := if avgPrecip ≠ 0 then some (pyRound avgPrecip 2) else none
        humidity_percent := if avgHumidity ≠ 0 then some (pyRound avgHumidity 2) else none
        clay_content_percent := props.clay
        sand_content_percent := props.sand
        silt_content_percent := props.silt }
    timestamp := now
    data_sources := ["OpenWeatherMap API", "NASA POWER API", "ISRIC SoilGrids API"]
    data_quality :=
      { weather_data_available := weatherData.isSome
        nasa_data_available := nasaData.isSome
        -- line 126 of the source rebinds the name soil_properties to the
        -- computed property record, which is never empty, so the flag at
        -- line 157 is constantly true regardless of the soil payload
        soil_data_available := true } }

/-- An HTTP transport for one source: given the coordinate and the index of
the attempt, either the decoded JSON payload or a transport-level failure
(timeout, connection error, non-2xx status). -/
abbrev Transport (α : Type) := ℚ → ℚ → ℕ → Except String α

/-- Embedding of `FreeSoilAnalyzer._get_weather_data` (lines 36-54): one
single request attempt; any failure is swallowed and the empty dict is
returned. The result carries the payload (`none` for the empty dict), the
number of request attempts issued, and the list of backoff sleeps performed.
The embedding is a total function, so no error propagates to the caller. -/
def getWeatherData (lat lon : ℚ) (transport : Transport WeatherPayload) :
    Option WeatherPayload × ℕ × List ℚ :=
  match transport lat lon 0 with
  | .ok payload => (some payload, 1, [])
  | .error _ => (none, 1, [])

/-- Embedding of `FreeSoilAnalyzer._get_nasa_power_data` (lines 56-76), same
single-attempt shape as the weather call. -/
def getNasaPowerData (lat lon : ℚ) (transport : Transport NasaParams) :
    Option NasaParams × ℕ × List ℚ :=
  match transport lat lon 0 with
  | .ok payload => (some payload, 1, [])
  | .error _ => (none, 1, [])

/-- Embedding of `FreeSoilAnalyzer._get_soilgrids_data` (lines 78-94), same
single-attempt shape as the weather call. -/
def getSoilgridsData (lat lon : ℚ) (transport : Transport (List SoilLayer)) :
    Option (List SoilLayer) × ℕ × List ℚ :=
  match transport lat lon 0 with
  | .ok payload => (some payload, 1, [])
  | .error _ => (none, 1, [])

/-- Embedding of `FreeSoilAnalyzer.get_soil_data` (lines 22-34): call the
three adapters unconditionally and process the payloads. The second
component counts the HTTP request attempts issued. -/
def getSoilData (now : String) (lat lon : ℚ) (wT : Transport WeatherPayload)
    (nT : Transport NasaParams) (sT : Transport (List SoilLayer)) :
    ProcessedSoilData × ℕ :=
  let w := getWeatherData lat lon wT
  let n := getNasaPowerData lat lon nT
  let s := getSoilgridsData lat lon sT
  (processSoilData now w.1 n.1 s.1, w.2.1 + n.2.1 + s.2.1)

/-- The coordinate check performed by `main` (line 310). -/
def validCoordinates (lat lon : ℚ) : Bool :=
  decide ((-90 ≤ lat ∧ lat ≤ 90) ∧ (-180 ≤ lon ∧ lon ≤ 180))

/-- The `ValueError` message raised by `main` on an invalid coordinate. -/
def invalidCoordinatesMessage : String :=
  "Invalid coordinates. Latitude must be between -90 and 90, longitude between -180 and 180."

/-- Embedding of the analysis flow of `main` (lines 294-322): validate the
coordinate, raising the `ValueError` (caught and printed as an error, with
no analysis record produced) before any network call; otherwise run
`get_soil_data`. The second component again counts request attempts. -/
def mainRun (now : String) (lat lon : ℚ) (wT : Transport WeatherPayload)
    (nT : Transport NasaParams) (sT : Transport (List SoilLayer)) :
    Except String ProcessedSoilData × ℕ :=
  if validCoordinates lat lon then
    let r := getSoilData now lat lon wT nT sT
    (.ok r.1, r.2)
  else (.error invalidCoordinatesMessage, 0)

/-- Modelled from the spec: the Range Validator contract `validate(value,
range)` of section 4.1 is absent from the source, which clamps inline with
`max`/`min` and keeps no validity flag; `none` stands for an absent or NaN
input, which the spec treats identically. -/
def validate (v : Option ℚ) (lo hi : ℚ) : ℚ × Bool :=
  match v with
  | none => (lo, false)
  | some x => if x < lo then (lo, false) else if hi < x then (hi, false) else (x, true)

/-- Modelled from the spec: `validateComposition(clay, sand, silt)` of
section 4.1 is absent from the source, whose `_analyze_soil_properties`
derives silt as the clamped remainder 100 - clay - sand and keeps no
validity flags. Each component is validated against [0,100]; a zero total
yields the zero triple marked invalid, otherwise each component is rescaled
by 100/sum and validity is the conjunction of the three flags. -/
def validateComposition (clay sand silt : ℚ) : (ℚ × ℚ × ℚ) × Bool :=
  let vc := validate (some clay) 0 100
  let vs := validate (some sand) 0 100
  let vi := validate (some silt) 0 100
  let total := vc.1 + vs.1 + vi.1
  if total = 0 then ((0, 0, 0), false)
  else ((vc.1 * (100 / total), vs.1 * (100 / total), vi.1 * (100 / total)),
    vc.2 && vs.2 && vi.2)

/-- The four data-quality levels of the spec's section 3 data model. -/
inductive DataQuality where
  | insufficient
  | low
  | medium
  | high
deriving DecidableEq

/-- Modelled from the spec: the quality verdict of section 4.4 is absent
from the source, whose `_process_soil_data` emits three per-source booleans
instead of a graded level. Inputs are the three source-success flags and the
per-field validity flags; all-fields validity is their conjunction and the
core fields are temperature and soil composition. -/
def dataQualityVerdict (wOk nOk sOk tempValid humidValid precipValid soilValid : Bool) :
    DataQuality :=
  if wOk && nOk && sOk && (tempValid && humidValid && precipValid && soilValid) then
    .high
  else if (wOk || nOk || sOk) && (tempValid && soilValid) then .medium
  else if wOk || nOk || sOk then .low
  else .insufficient

/-- Claim C7: `validate` reports `wasValid = true` exactly on present,
in-range values; an absent (or NaN) value yields the lower bound flagged
invalid; an out-of-range value is clamped to the nearest bound and flagged
invalid; an in-range value passes through unchanged. -/
theorem c7_validate_contract :
    ∀ (v : Option ℚ) (lo hi : ℚ), lo ≤ hi →
      ((validate v lo hi).2 = true ↔ ∃ x, v = some x ∧ lo ≤ x ∧ x ≤ hi) ∧
      validate none lo hi = (lo, false) ∧
      (∀ x, v = some x → x < lo → validate v lo hi = (lo, false)) ∧
      (∀ x, v = some x → hi < x → validate v lo hi = (hi, false)) ∧
      (∀ x, v = some x → lo ≤ x → x ≤ hi → validate v lo hi = (x, true)) := by
  intro v lo hi hrange
  refine ⟨?_, rfl, ?_, ?_, ?_⟩
  · cases v with
    | none => simp [validate]
    | some x =>
      by_cases h1 : x < lo
      · simp only [validate, if_pos h1]
        constructor
        · intro h
          simp at h
        · rintro ⟨y, hy, hlo, _⟩
          rw [Option.some_inj] at hy
          subst hy
          exact absurd h1 (not_lt.mpr hlo)
      · by_cases h2 : hi < x
        · simp only [validate, if_neg h1, if_pos h2]
          constructor
          · intro h
            simp at h
          · rintro ⟨y, hy, _, hhi⟩
            rw [Option.some_inj] at hy
            subst hy
            exact absurd h2 (not_lt.mpr hhi)
        · simp only [validate, if_neg h1, if_neg h2]
          exact ⟨fun _ => ⟨x, rfl, not_lt.mp h1, not_lt.mp h2⟩, fun _ => by simp⟩
  · intro x hx h
    subst hx
    simp only [validate]
    rw [if_pos h]
  · intro x hx h
    subst hx
    simp only [validate]
    rw [if_neg (not_lt.mpr (le_of_lt (lt_of_le_of_lt hrange h))), if_pos h]
  · intro x hx hlo hhi
    subst hx
    simp only [validate]
    rw [if_neg (not_lt.mpr hlo), if_neg (not_lt.mpr hhi)]

/-- Witness for C7: an out-of-range reading 120 against [0, 100] clamps to
the upper bound and is flagged invalid. -/
theorem c7_witness : validate (some 120) 0 100 = (100, false) :=
  (c7_validate_contract (some 120) 0 100 (by norm_num)).2.2.2.1 120 rfl (by norm_num)

/-- Claim C2: when the three validated components have a nonzero sum, the
returned triple sums to exactly 100, each component is the validated value
rescaled by 100/sum, and the validity flag is the conjunction of the three
per-component flags; a zero sum yields the zero triple marked invalid, and
in particular `validateComposition 0 0 0 = ((0,0,0), false)`. -/
theorem c2_validateComposition_spec :
    (∀ clay sand silt : ℚ,
      (validate (some clay) 0 100).1 + (validate (some sand) 0 100).1 +
          (validate (some silt) 0 100).1 ≠ 0 →
      (validateComposition clay sand silt).1.1 +
          (validateComposition clay sand silt).1.2.1 +
          (validateComposition clay sand silt).1.2.2 = 100 ∧
      (validateComposition clay sand silt).1.1 =
        (validate (some clay) 0 100).1 *
          (100 / ((validate (some clay) 0 100).1 + (validate (some sand) 0 100).1 +
            (validate (some silt) 0 100).1)) ∧
      (validateComposition clay sand silt).1.2.1 =
        (validate (some sand) 0 100).1 *
          (100 / ((validate (some clay) 0 100).1 + (validate (some sand) 0 100).1 +
            (validate (some silt) 0 100).1)) ∧
      (validateComposition clay sand silt).1.2.2 =
        (validate (some silt) 0 100).1 *
          (100 / ((validate (some clay) 0 100).1 + (validate (some sand) 0 100).1 +
            (validate (some silt) 0 100).1)) ∧
      (validateComposition clay sand silt).2 =
        ((validate (some clay) 0 100).2 && (validate (some sand) 0 100).2 &&
          (validate (some silt) 0 100).2)) ∧
    (∀ clay sand silt : ℚ,
      (validate (some clay) 0 100).1 + (validate (some sand) 0 100).1 +
          (validate (some silt) 0 100).1 = 0 →
      validateComposition clay sand silt = ((0, 0, 0), false)) ∧
    validateComposition 0 0 0 = ((0, 0, 0), false) := by
  refine ⟨?_, ?_, ?_⟩
  · intro clay sand silt hT
    simp only [validateComposition]
    rw [if_neg hT]
    refine ⟨?_, rfl, rfl, rfl, rfl⟩
    field_simp
    ring
  · intro clay sand silt hT
    simp only [validateComposition]
    rw [if_pos hT]
  · simp only [validateComposition]
    rw [if_pos (by norm_num [validate])]

/-- Witness for C2 at the concrete composition (30, 30, 30): the normalized
triple sums to exactly 100. -/
theorem c2_witness :
    (validateComposition 30 30 30).1.1 + (validateComposition 30 30 30).1.2.1 +
      (validateComposition 30 30 30).1.2.2 = 100 :=
  (c2_validateComposition_spec.1 30 30 30 (by norm_num [validate])).1

/-- Claim C3: the quality verdict is a function of the source-success and
field-validity flags alone (determinism is definitional), and takes exactly
the four levels of the spec table: no source succeeded yields Insufficient;
all three sources succeeded with every field valid yields High; otherwise at
least one source with valid core fields (temperature, soil composition)
yields Medium; at least one source with invalid core fields yields Low. -/
theorem c3_data_quality_verdict :
    ∀ w n s tV hV pV sV : Bool,
      ((w || n || s) = false →
        dataQualityVerdict w n s tV hV pV sV = .insufficient) ∧
      ((w && n && s && (tV && hV && pV && sV)) = true →
        dataQualityVerdict w n s tV hV pV sV = .high) ∧
      ((w || n || s) = true → (tV && sV) = true →
        (w && n && s && (tV && hV && pV && sV)) = false →
        dataQualityVerdict w n s tV hV pV sV = .medium) ∧
      ((w || n || s) = true → (tV && sV) = false →
        dataQualityVerdict w n s tV hV pV sV = .low) := by
  decide

/-- Witness for C3: with no source available the verdict is Insufficient. -/
theorem c3_witness :
    dataQualityVerdict false false false false false false false = .insufficient :=
  (c3_data_quality_verdict false false false false false false false).1 rfl

lemma pyRoundInt_intCast (n : ℤ) : pyRoundInt (n : ℚ) = n := by
  unfold pyRoundInt
  rw [Int.fract_intCast]
  norm_num

lemma pyRound_intCast (n : ℤ) (nd : ℕ) : pyRound (n : ℚ) nd = n := by
  unfold pyRound
  have h : ((n : ℚ) * 10 ^ nd) = ((n * 10 ^ nd : ℤ) : ℚ) := by push_cast; ring
  rw [h, pyRoundInt_intCast]
  push_cast
  field_simp

lemma safeGetNasaValue_single :
    safeGetNasaValue [("T2M", [some 10])] "T2M" = 10 := by
  simp [safeGetNasaValue]

/-- Claim C4 counterexample: a run where the weather payload is available and
reports 25 °C while the NASA POWER 7-day series averages 10 °C. The produced
temperature is 10 (the atmospheric aggregate), not the weather adapter's 25:
the builder never reads the weather payload's fields. -/
theorem c4_counterexample :
    (processSoilData "2024-01-01T00:00:00" (some { temp := some 25, humidity := some 60 })
        (some [("T2M", [some 10])]) none).additional_properties.temperature_celsius =
      some 10 ∧ some (10 : ℚ) ≠ some (25 : ℚ) := by
  constructor
  · have h10 : pyRound 10 2 = 10 := by
      have := pyRound_intCast 10 2
      push_cast at this
      exact this
    simp [processSoilData, safeGetNasaValue_single, h10]
  · simp

/-- Claim C4 (amended): the weather payload influences only the
`weather_data_available` flag; every other output field — in particular
temperature, humidity and precipitation — is computed solely from the
atmospheric (NASA POWER) and soil payloads. -/
theorem c4_env_fields_from_atmospheric :
    ∀ (now : String) (w1 w2 : Option WeatherPayload) (n : Option NasaParams)
      (s : Option (List SoilLayer)),
      (processSoilData now w1 n s).moisture_content =
        (processSoilData now w2 n s).moisture_content ∧
      (processSoilData now w1 n s).soil_type = (processSoilData now w2 n s).soil_type ∧
      (processSoilData now w1 n s).organic_matter =
        (processSoilData now w2 n s).organic_matter ∧
      (processSoilData now w1 n s).ph_level = (processSoilData now w2 n s).ph_level ∧
      (processSoilData now w1 n s).nitrogen_content =
        (processSoilData now w2 n s).nitrogen_content ∧
      (processSoilData now w1 n s).additional_properties =
        (processSoilData now w2 n s).additional_properties ∧
      (processSoilData now w1 n s).timestamp = (processSoilData now w2 n s).timestamp ∧
      (processSoilData now w1 n s).data_sources =
        (processSoilData now w2 n s).data_sources ∧
      (processSoilData now w1 n s).data_quality.nasa_data_available =
        (processSoilData now w2 n s).data_quality.nasa_data_available ∧
      (processSoilData now w1 n s).data_quality.soil_data_available =
        (processSoilData now w2 n s).data_quality.soil_data_available := by
  intro now w1 w2 n s
  exact ⟨rfl, rfl, rfl, rfl, rfl, rfl, rfl, rfl, rfl, rfl⟩

/-- Claim C5 counterexample: for a transport that always fails, the weather
fetch returns the empty payload after exactly one attempt with no backoff
sleeps — not after the spec's `maxRetries = 3` attempts. -/
theorem c5_counterexample :
    getWeatherData 0 0 (fun _ _ _ => .error "connection refused") = (none, 1, []) ∧
    (1 : ℕ) ≠ 3 := by
  exact ⟨rfl, by norm_num⟩

/-- Claim C5 (amended): the fetch never raises (it is a total function); for
every coordinate and transport it issues exactly one request attempt,
performs no backoff sleeps, and returns the payload of that single attempt —
the empty payload on any transport-level failure. -/
theorem c5_fetch_single_attempt :
    ∀ (lat lon : ℚ) (transport : Transport WeatherPayload),
      getWeatherData lat lon transport = ((transport lat lon 0).toOption, 1, []) := by
  intro lat lon transport
  unfold getWeatherData
  cases transport lat lon 0 <;> rfl

/-- Claim C6 counterexample: at the invalid latitude 200, `main` aborts with
the `ValueError` message and zero network calls — it produces no analysis
record of any quality — while `get_soil_data` itself performs no coordinate
validation and issues its three source requests even at (200, 0). -/
theorem c6_counterexample :
    mainRun "2024-01-01T00:00:00" 200 0 (fun _ _ _ => .error "e")
        (fun _ _ _ => .error "e") (fun _ _ _ => .error "e") =
      (.error invalidCoordinatesMessage, 0) ∧
    (getSoilData "2024-01-01T00:00:00" 200 0 (fun _ _ _ => .error "e")
        (fun _ _ _ => .error "e") (fun _ _ _ => .error "e")).2 = 3 ∧
    (3 : ℕ) ≠ 0 := by
  have hv : validCoordinates 200 0 = false := by
    simp [validCoordinates]
    norm_num
  refine ⟨?_, rfl, by norm_num⟩
  simp [mainRun, hv]

/-- Claim C6 (amended): coordinate validation lives only in `main`, which on
an out-of-range latitude or longitude raises the `ValueError` before any
network call — zero request attempts, no analysis record — whereas
`get_soil_data` never validates the coordinate and always issues exactly
three source requests. -/
theorem c6_coordinate_validation :
    (∀ (now : String) (lat lon : ℚ) (wT : Transport WeatherPayload)
        (nT : Transport NasaParams) (sT : Transport (List SoilLayer)),
      validCoordinates lat lon = false →
      mainRun now lat lon wT nT sT = (.error invalidCoordinatesMessage, 0)) ∧
    (∀ (now : String) (lat lon : ℚ) (wT : Transport WeatherPayload)
        (nT : Transport NasaParams) (sT : Transport (List SoilLayer)),
      (getSoilData now lat lon wT nT sT).2 = 3) := by
  constructor
  · intro now lat lon wT nT sT h
    simp [mainRun, h]
  · intro now lat lon wT nT sT
    unfold getSoilData getWeatherData getNasaPowerData getSoilgridsData
    rcases wT lat lon 0 <;> rcases nT lat lon 0 <;> rcases sT lat lon 0 <;> rfl

/-- Witness for C6 at the invalid latitude 200. -/
theorem c6_witness :
    mainRun "t" 200 0 (fun _ _ _ => .error "e") (fun _ _ _ => .error "e")
        (fun _ _ _ => .error "e") = (.error invalidCoordinatesMessage, 0) :=
  c6_coordinate_validation.1 "t" 200 0 _ _ _ (by simp [validCoordinates]; norm_num)

/-- Claim C8 counterexample: a genuinely out-of-range negative raw pH of -1
is clamped to 0 and then replaced by the neutral default 7.0, although it was
not absent from the source; and a raw pH of 12 passes through unclamped,
because the source clamps against [0, 14], not [3, 10] (which would have
returned 3 and 10 respectively). -/
theorem c8_counterexample :
    computePhLevel (-1) = 7 ∧ (7 : ℚ) ≠ 3 ∧
    computePhLevel 12 = 12 ∧ (12 : ℚ) ≠ 10 := by
  refine ⟨?_, by norm_num, ?_, by norm_num⟩
  · simp only [computePhLevel]
    norm_num
  · simp only [computePhLevel]
    norm_num

/-- Claim C8 (amended): the extracted pH is clamped against [0, 14] (not
[3, 10]), and the neutral default 7.0 is applied exactly when the clamped
value is 0 — that is, for every raw value ≤ 0, including genuinely negative
out-of-range readings, not only the absent-field default of 0. -/
theorem c8_ph_fallback :
    ∀ rawPh : ℚ,
      (rawPh ≤ 0 → computePhLevel rawPh = 7) ∧
      (0 < rawPh → computePhLevel rawPh = min 14 rawPh) := by
  intro rawPh
  constructor
  · intro h
    simp only [computePhLevel]
    rw [if_pos]
    rw [max_eq_left]
    exact min_le_of_right_le h
  · intro h
    simp only [computePhLevel]
    rw [max_eq_right, if_neg]
    · positivity
    · positivity

/-- Witness for C8: the negative reading -1 is defaulted to 7.0. -/
theorem c8_witness : computePhLevel (-1) = 7 :=
  (c8_ph_fallback (-1)).1 (by norm_num)

/-- Claim C9 counterexample: two builder runs with identical (all-failed)
fetch inputs but different wall-clock readings produce records that are not
bit-identical — the builder stamps `datetime.now()` itself, so the clock is
hidden state influencing the output. -/
theorem c9_counterexample :
    processSoilData "2024-01-01T00:00:00" none none none ≠
      processSoilData "2024-01-02T00:00:00" none none none := by
  intro h
  have h2 := congrArg ProcessedSoilData.timestamp h
  simp [processSoilData] at h2

/-- Claim C9 (amended): the builder is deterministic in the three fetch
payloads and the clock: two runs with identical payloads agree on every
output field except `timestamp`, which records the wall-clock reading of
the respective call. -/
theorem c9_build_deterministic_given_clock :
    ∀ (t1 t2 : String) (w : Option WeatherPayload) (n : Option NasaParams)
      (s : Option (List SoilLayer)),
      (processSoilData t1 w n s).moisture_content =
        (processSoilData t2 w n s).moisture_content ∧
      (processSoilData t1 w n s).soil_type = (processSoilData t2 w n s).soil_type ∧
      (processSoilData t1 w n s).organic_matter =
        (processSoilData t2 w n s).organic_matter ∧
      (processSoilData t1 w n s).ph_level = (processSoilData t2 w n s).ph_level ∧
      (processSoilData t1 w n s).nitrogen_content =
        (processSoilData t2 w n s).nitrogen_content ∧
      (processSoilData t1 w n s).additional_properties =
        (processSoilData t2 w n s).additional_properties ∧
      (processSoilData t1 w n s).data_sources =
        (processSoilData t2 w n s).data_sources ∧
      (processSoilData t1 w n s).data_quality = (processSoilData t2 w n s).data_quality ∧
      (processSoilData t1 w n s).timestamp = t1 ∧
      (processSoilData t2 w n s).timestamp = t2 := by
  intro t1 t2 w n s
  exact ⟨rfl, rfl, rfl, rfl, rfl, rfl, rfl, rfl, rfl, rfl⟩

/-- Claim C10: each of the three environmental `additional_properties`
fields is null exactly when the corresponding 7-day averaged value is
exactly 0; and a measured zero average (here a series averaging to 0 over
the non-null entries 5 and -5) yields the same 0 as an absent parameter, so
the two are indistinguishable at the output boundary. -/
theorem c10_null_iff_zero_average :
    (∀ (now : String) (w : Option WeatherPayload) (n : Option NasaParams)
        (s : Option (List SoilLayer)),
      ((processSoilData now w n s).additional_properties.temperature_celsius = none ↔
        safeGetNasaValue (n.getD []) "T2M" = 0) ∧
      ((processSoilData now w n s).additional_properties.precipitation_mm = none ↔
        safeGetNasaValue (n.getD []) "PRECTOT" = 0) ∧
      ((processSoilData now w n s).additional_properties.humidity_percent = none ↔
        safeGetNasaValue (n.getD []) "RH2M" = 0)) ∧
    safeGetNasaValue [("T2M", [some 5, some (-5)])] "T2M" = 0 ∧
    safeGetNasaValue [] "T2M" = 0 := by
  refine ⟨?_, ?_, ?_⟩
  · intro now w n s
    refine ⟨?_, ?_, ?_⟩ <;>
      · simp only [processSoilData]
        split_ifs with h <;> simp_all
  · simp [safeGetNasaValue]
  · simp [safeGetNasaValue]
